import Mathlib

/-!
Shallow embedding of the face-detection-and-crop pipeline of
`src/utils/faceDetection.ts` (Wild-West-Poster-Generator).

Numeric values (pixel coordinates, dimensions, the padding factor) are
modelled as exact rationals `ℚ`; the effectful steps (image decode,
dynamic import, model fetch, inference, canvas context acquisition) are
modelled by passing an explicit environment describing the outcome of
each external effect, and `Except String` models promise
resolution/rejection.
-/

namespace FaceDetection

/-- A face bounding box, as in `detection.box` (face-api.js `Box`). -/
structure Box where
  x : ℚ
  y : ℚ
  width : ℚ
  height : ℚ
  deriving DecidableEq, Repr

/-- Decoded raster dimensions of an image (`img.width`, `img.height`). -/
structure Dims where
  width : ℚ
  height : ℚ
  deriving DecidableEq, Repr

/-- The crop rectangle computed inside `cropImageToFace`. -/
structure CropRect where
  x : ℚ
  y : ℚ
  width : ℚ
  height : ℚ
  deriving DecidableEq, Repr

/-- The pure crop-geometry computation, translated line by line from
`cropImageToFace` (src/utils/faceDetection.ts lines 84–95):
face center, square size `max(w,h) * padding`, origin clamped at 0,
extent clamped to the image edge. -/
def computeCrop (box : Box) (dims : Dims) (padding : ℚ) : CropRect :=
  let faceWidth := box.width
  let faceHeight := box.height
  let faceCenterX := box.x + faceWidth / 2
  let faceCenterY := box.y + faceHeight / 2
  let maxDimension := max faceWidth faceHeight
  let cropSize := maxDimension * padding
  let cropX := max 0 (faceCenterX - cropSize / 2)
  let cropY := max 0 (faceCenterY - cropSize / 2)
  let cropWidth := min cropSize (dims.width - cropX)
  let cropHeight := min cropSize (dims.height - cropY)
  { x := cropX, y := cropY, width := cropWidth, height := cropHeight }

/-- The spec's reference definition of the crop computation (§4.2 steps 1–4),
written from the spec's words, for comparison with `computeCrop`. -/
def computeCropSpec (box : Box) (dims : Dims) (padding : ℚ) : CropRect :=
  let faceCenterX := box.x + box.width / 2
  let faceCenterY := box.y + box.height / 2
  let cropSize := max box.width box.height * padding
  let cropX := max 0 (faceCenterX - cropSize / 2)
  let cropY := max 0 (faceCenterY - cropSize / 2)
  { x := cropX, y := cropY,
    width := min cropSize (dims.width - cropX),
    height := min cropSize (dims.height - cropY) }

/-! ### Detector gateway state (`loadModels`)

Module-level mutable state of `faceDetection.ts`: the `faceapi` binding
(set once the dynamic import succeeds) and the `modelsLoaded` flag.
`fetchCount` instruments the number of `loadFromUri` (model fetch)
invocations; it is not program state, only a counter of the effect. -/
structure GatewayState where
  faceapiLoaded : Bool
  modelsLoaded : Bool
  fetchCount : Nat
  deriving DecidableEq, Repr

/-- The initial module state: nothing imported, nothing loaded. -/
def initialGateway : GatewayState :=
  { faceapiLoaded := false, modelsLoaded := false, fetchCount := 0 }

/-- Outcomes of the two external effects `loadModels` performs:
the dynamic `import('face-api.js')` and the
`faceapi.nets.tinyFaceDetector.loadFromUri` model fetch. -/
structure LoadEnv where
  importOk : Bool
  fetchOk : Bool
  deriving DecidableEq, Repr

/-- One sequential (non-overlapping) call of `loadModels`
(src/utils/faceDetection.ts lines 13–34): return immediately if
`modelsLoaded`; otherwise import `face-api.js` if not yet bound, fetch the
TinyFaceDetector model, set `modelsLoaded = true` on success; any error is
rethrown (the `catch` logs and `throw error`s) with `modelsLoaded` left
`false`. -/
def loadModels (env : LoadEnv) (s : GatewayState) :
    Except String Unit × GatewayState :=
  if s.modelsLoaded then (Except.ok (), s)
  else if s.faceapiLoaded then
    -- `faceapi` already bound: go straight to the model fetch
    if env.fetchOk then
      (Except.ok (), { s with modelsLoaded := true, fetchCount := s.fetchCount + 1 })
    else
      (Except.error "model fetch failed", { s with fetchCount := s.fetchCount + 1 })
  else if env.importOk then
    if env.fetchOk then
      (Except.ok (),
        { faceapiLoaded := true, modelsLoaded := true, fetchCount := s.fetchCount + 1 })
    else
      (Except.error "model fetch failed",
        { s with faceapiLoaded := true, fetchCount := s.fetchCount + 1 })
  else
    (Except.error "import failed", s)

/-- `N` sequential `loadModels` calls under one environment. -/
def loadModelsN (env : LoadEnv) (s : GatewayState) : Nat → GatewayState
  | 0 => s
  | n + 1 => loadModelsN env (loadModels env s).2 n

/-! ### `detectFace` -/

/-- The body of `detectFace`'s `try` block: `await loadModels()` then
`await faceapi.detectSingleFace(...)`, either of which may throw. -/
def detectFaceBody (loadRes : Except String Unit) (infer : Except String (Option Box)) :
    Except String (Option Box) :=
  match loadRes with
  | Except.error e => Except.error e
  | Except.ok _ => infer

/-- `detectFace` (src/utils/faceDetection.ts lines 41–59): run the try
body; the `catch` clause logs the error and returns `null`, so the
function always resolves with an `Option Box`. -/
def detectFace (loadRes : Except String Unit) (infer : Except String (Option Box)) :
    Option Box :=
  match detectFaceBody loadRes infer with
  | Except.ok d => d
  | Except.error _ => none

/-! ### `cropImageToFace` -/

/-- The value of `canvas.toDataURL('image/jpeg', 0.95)`: a re-encoding of
the crop region of the source image, tagged with the MIME type and
quality passed to `toDataURL`. -/
structure EncodedImage where
  mime : String
  quality : ℚ
  rect : CropRect
  source : String
  deriving DecidableEq, Repr

/-- Effect outcomes of one `cropImageToFace` call: whether the inner
`new Image()` load of `imageDataUrl` succeeds (and with which raster
dimensions), and whether `canvas.getContext('2d')` returns a context. -/
structure CropEnv where
  imgLoad : Option Dims
  ctxOk : Bool
  deriving DecidableEq, Repr

/-- `cropImageToFace` (src/utils/faceDetection.ts lines 68–128):
reject with `'Failed to load image for cropping'` on `img.onerror`;
otherwise compute the crop rectangle, reject with
`'Could not get canvas context'` if no 2d context, else draw the crop
region and resolve with the `image/jpeg`, quality-0.95 data URL. -/
def cropImageToFace (imageDataUrl : String) (detection : Box) (padding : ℚ)
    (env : CropEnv) : Except String EncodedImage :=
  match env.imgLoad with
  | none => Except.error "Failed to load image for cropping"
  | some dims =>
    if env.ctxOk then
      Except.ok
        { mime := "image/jpeg", quality := 95 / 100,
          rect := computeCrop detection dims padding, source := imageDataUrl }
    else
      Except.error "Could not get canvas context"

/-! ### `processImageWithFaceDetection` -/

/-- The processed image handed back: either the original input data URL
verbatim, or the jpeg re-encoding produced by `cropImageToFace`. -/
inductive ImageOut where
  | orig (s : String)
  | jpeg (e : EncodedImage)
  deriving DecidableEq, Repr

/-- The resolution value of `processImageWithFaceDetection`: the code
resolves an object with three fields. -/
structure ProcessResult where
  processedImage : ImageOut
  faceDetected : Bool
  detection : Option Box
  deriving DecidableEq, Repr

/-- Effect outcomes of one `processImageWithFaceDetection` call. -/
structure ProcEnv where
  /-- the outer `new Image()` decode of the input (`onload` dims / `onerror`) -/
  decodeInput : Option Dims
  /-- outcome of `loadModels` inside `detectFace` -/
  loadRes : Except String Unit
  /-- outcome of the `detectSingleFace` inference -/
  infer : Except String (Option Box)
  /-- effects of the nested `cropImageToFace` call -/
  cropEnv : CropEnv

/-- `processImageWithFaceDetection` (src/utils/faceDetection.ts lines
136–182): `img.onerror` rejects with `'Failed to load image'`; inside
`onload`, `detectFace` (which never throws) picks a detection; if found,
crop — any throw from cropping is caught and resolves the fallback
`{processedImage: imageDataUrl, faceDetected: false, detection: null}`;
if not found, resolve the same fallback. `cropImageToFace` is called with
its default padding `1.8`. -/
def processImageWithFaceDetection (imageDataUrl : String) (env : ProcEnv) :
    Except String ProcessResult :=
  match env.decodeInput with
  | none => Except.error "Failed to load image"
  | some _dims =>
    match detectFace env.loadRes env.infer with
    | some box =>
      match cropImageToFace imageDataUrl box (9 / 5) env.cropEnv with
      | Except.ok cropped =>
        Except.ok { processedImage := ImageOut.jpeg cropped,
                    faceDetected := true, detection := some box }
      | Except.error _ =>
        Except.ok { processedImage := ImageOut.orig imageDataUrl,
                    faceDetected := false, detection := none }
    | none =>
      Except.ok { processedImage := ImageOut.orig imageDataUrl,
                  faceDetected := false, detection := none }

/-! ### Interleaving model of concurrent `loadModels` calls

`loadModels` is an `async` function; its `await` points (the dynamic
library binding / the model fetch) let other tasks run between the
`modelsLoaded` check, the fetch, and the `modelsLoaded = true` assignment. We model two
overlapping calls as two threads of three atomic steps each (check flag,
perform fetch, set flag — successful-load environment), scheduled by an
explicit interleaving. -/
inductive TPC where
  | check
  | fetch
  | setFlag
  | done
  deriving DecidableEq, Repr

/-- Shared module state plus the program counters of two in-flight
`loadModels` invocations. -/
structure ConcState where
  loaded : Bool
  fetchCount : Nat
  pc0 : TPC
  pc1 : TPC
  deriving DecidableEq, Repr

/-- Both calls poised at the `if (modelsLoaded)` check, models unloaded. -/
def concInit : ConcState :=
  { loaded := false, fetchCount := 0, pc0 := TPC.check, pc1 := TPC.check }

/-- One atomic step of one `loadModels` invocation (successful effects):
the check returns early iff `modelsLoaded` is already true; the fetch
performs the model download; then the flag is set. Returns
(new flag, new fetch count, new pc). -/
def stepThread (loaded : Bool) (fetchCount : Nat) : TPC → Bool × Nat × TPC
  | TPC.check =>
    if loaded then (loaded, fetchCount, TPC.done) else (loaded, fetchCount, TPC.fetch)
  | TPC.fetch => (loaded, fetchCount + 1, TPC.setFlag)
  | TPC.setFlag => (true, fetchCount, TPC.done)
  | TPC.done => (loaded, fetchCount, TPC.done)

/-- Run the scheduled thread (`false` = first caller, `true` = second)
for one atomic step. -/
def concStep (s : ConcState) (tid : Bool) : ConcState :=
  if tid then
    let r := stepThread s.loaded s.fetchCount s.pc1
    { loaded := r.1, fetchCount := r.2.1, pc0 := s.pc0, pc1 := r.2.2 }
  else
    let r := stepThread s.loaded s.fetchCount s.pc0
    { loaded := r.1, fetchCount := r.2.1, pc0 := r.2.2, pc1 := s.pc1 }

/-- Run a whole schedule (list of thread ids) from a state. -/
def concRun (s : ConcState) : List Bool → ConcState
  | [] => s
  | t :: ts => concRun (concStep s t) ts

/-- The overlapping schedule: both callers pass the `modelsLoaded` check
before either has completed its load. -/
def overlappedSchedule : List Bool :=
  [false, true, false, false, true, true]

/-- The sequential schedule: the first caller runs to completion before
the second starts. -/
def sequentialSchedule : List Bool :=
  [false, false, false, true, true, true]

end FaceDetection

namespace FaceDetection

/-! ## Helper lemmas -/

/-- One axis of the clamp in `computeCrop`: provided the image extent is
positive, the center lies strictly inside it, and the target size is
positive, the clamped origin is nonnegative, the clamped extent is
positive, and origin plus extent stays within the image. -/
lemma axis_clamp (c W s : ℚ) (hW : 0 < W) (hc : c < W) (hs : 0 < s) :
    0 ≤ max 0 (c - s / 2) ∧
    0 < min s (W - max 0 (c - s / 2)) ∧
    max 0 (c - s / 2) + min s (W - max 0 (c - s / 2)) ≤ W := by
  have ho : max 0 (c - s / 2) < W := max_lt hW (by linarith)
  refine ⟨le_max_left _ _, lt_min hs (by linarith), ?_⟩
  have := min_le_right s (W - max 0 (c - s / 2))
  linarith

/-- One axis of the clamp in `computeCrop`, interior case: when the
center is at least `s/2` from both edges of the axis, the clamped extent
is exactly the target size `s`. -/
lemma axis_interior (c W s : ℚ) (h1 : s / 2 ≤ c) (h2 : c + s / 2 ≤ W) :
    min s (W - max 0 (c - s / 2)) = s := by
  rw [max_eq_right (by linarith), min_eq_left (by linarith)]

/-- Once `modelsLoaded` is set, every further sequential `loadModels`
call leaves the state untouched. -/
lemma loadModelsN_loaded (env : LoadEnv) (s : GatewayState)
    (h : s.modelsLoaded = true) : ∀ n, loadModelsN env s n = s := by
  intro n
  induction n with
  | zero => rfl
  | succ m ih =>
    show loadModelsN env (loadModels env s).2 m = s
    rw [loadModels, if_pos h]
    exact ih

/-! ## Claim theorems -/

/-- **C2.** The crop computation equals the spec's reference definition;
on the concrete input (image 1000×800, box `{x:400, y:300, width:120,
height:160}`, padding 1.8) it returns `{x:316, y:236, width:288,
height:288}`; and whenever the face center is at least `cropSize/2` from
every image edge the result is exactly square with side
`max(box.width, box.height) * padding`. -/
theorem C2_crop_geometry :
    (∀ (box : Box) (dims : Dims) (padding : ℚ),
      computeCrop box dims padding = computeCropSpec box dims padding) ∧
    computeCrop ⟨400, 300, 120, 160⟩ ⟨1000, 800⟩ (9/5) = ⟨316, 236, 288, 288⟩ ∧
    (∀ (box : Box) (dims : Dims) (padding : ℚ),
      max box.width box.height * padding / 2 ≤ box.x + box.width / 2 →
      box.x + box.width / 2 + max box.width box.height * padding / 2 ≤ dims.width →
      max box.width box.height * padding / 2 ≤ box.y + box.height / 2 →
      box.y + box.height / 2 + max box.width box.height * padding / 2 ≤ dims.height →
      (computeCrop box dims padding).width = max box.width box.height * padding ∧
      (computeCrop box dims padding).height = max box.width box.height * padding) := by
  refine ⟨fun box dims padding => rfl, ?_, ?_⟩
  · simp only [computeCrop]
    norm_num [max_def, min_def]
  · intro box dims padding h1 h2 h3 h4
    simp only [computeCrop]
    exact ⟨axis_interior _ _ _ h1 h2, axis_interior _ _ _ h3 h4⟩

/-- Witness for C2: the square-crop clause applied to the concrete
interior scenario (1000×800 image, box `{400,300,120,160}`, padding 1.8),
whose center (460, 380) is at least 144 from every edge. -/
theorem C2_crop_geometry_witness :
    (computeCrop ⟨400, 300, 120, 160⟩ ⟨1000, 800⟩ (9/5)).width =
      max (120 : ℚ) 160 * (9/5) ∧
    (computeCrop ⟨400, 300, 120, 160⟩ ⟨1000, 800⟩ (9/5)).height =
      max (120 : ℚ) 160 * (9/5) :=
  C2_crop_geometry.2.2 ⟨400, 300, 120, 160⟩ ⟨1000, 800⟩ (9/5)
    (by norm_num [max_def]) (by norm_num [max_def])
    (by norm_num [max_def]) (by norm_num [max_def])

/-- **C3.** Crop containment: for every bounding box inside the image
with positive extent and every padding ≥ 1, the computed crop rectangle
has nonnegative origin, positive width and height, and lies fully inside
the image. -/
theorem C3_crop_containment (box : Box) (dims : Dims) (padding : ℚ)
    (hx : 0 ≤ box.x) (hy : 0 ≤ box.y)
    (hw : 0 < box.width) (hh : 0 < box.height)
    (hxW : box.x + box.width ≤ dims.width)
    (hyH : box.y + box.height ≤ dims.height)
    (hp : 1 ≤ padding) :
    0 ≤ (computeCrop box dims padding).x ∧
    0 ≤ (computeCrop box dims padding).y ∧
    (computeCrop box dims padding).x + (computeCrop box dims padding).width
      ≤ dims.width ∧
    (computeCrop box dims padding).y + (computeCrop box dims padding).height
      ≤ dims.height ∧
    0 < (computeCrop box dims padding).width ∧
    0 < (computeCrop box dims padding).height := by
  have hs : 0 < max box.width box.height * padding :=
    mul_pos (lt_max_iff.mpr (Or.inl hw)) (by linarith)
  have hW : 0 < dims.width := by linarith
  have hH : 0 < dims.height := by linarith
  have hcX : box.x + box.width / 2 < dims.width := by linarith
  have hcY : box.y + box.height / 2 < dims.height := by linarith
  obtain ⟨hx0, hwpos, hxin⟩ :=
    axis_clamp (box.x + box.width / 2) dims.width
      (max box.width box.height * padding) hW hcX hs
  obtain ⟨hy0, hhpos, hyin⟩ :=
    axis_clamp (box.y + box.height / 2) dims.height
      (max box.width box.height * padding) hH hcY hs
  simp only [computeCrop]
  exact ⟨hx0, hy0, hxin, hyin, hwpos, hhpos⟩

/-- Witness for C3: containment at the concrete spec scenario. -/
theorem C3_crop_containment_witness :
    0 ≤ (computeCrop ⟨400, 300, 120, 160⟩ ⟨1000, 800⟩ (9/5)).x ∧
    0 ≤ (computeCrop ⟨400, 300, 120, 160⟩ ⟨1000, 800⟩ (9/5)).y ∧
    (computeCrop ⟨400, 300, 120, 160⟩ ⟨1000, 800⟩ (9/5)).x +
      (computeCrop ⟨400, 300, 120, 160⟩ ⟨1000, 800⟩ (9/5)).width ≤ 1000 ∧
    (computeCrop ⟨400, 300, 120, 160⟩ ⟨1000, 800⟩ (9/5)).y +
      (computeCrop ⟨400, 300, 120, 160⟩ ⟨1000, 800⟩ (9/5)).height ≤ 800 ∧
    0 < (computeCrop ⟨400, 300, 120, 160⟩ ⟨1000, 800⟩ (9/5)).width ∧
    0 < (computeCrop ⟨400, 300, 120, 160⟩ ⟨1000, 800⟩ (9/5)).height :=
  C3_crop_containment ⟨400, 300, 120, 160⟩ ⟨1000, 800⟩ (9/5)
    (by norm_num) (by norm_num) (by norm_num) (by norm_num)
    (by norm_num) (by norm_num) (by norm_num)

/-- **C1 counterexample.** The claim says `process` never raises and that
a decode failure on the input bytes is recovered locally with the
original bytes returned; but when the outer `new Image()` load of the
input fails (`img.onerror`), `processImageWithFaceDetection` rejects with
`'Failed to load image'` instead of resolving with a fallback outcome. -/
theorem C1_decode_rejects_counterexample :
    processImageWithFaceDetection "input"
      { decodeInput := none, loadRes := Except.ok (),
        infer := Except.ok none, cropEnv := { imgLoad := none, ctxOk := true } }
      = Except.error "Failed to load image" := rfl

/-- **C1 (amended).** Provided the input image itself decodes, `process`
resolves with the fallback `{processedImage: original input,
faceDetected: false}` for every failure injected into the detector
gateway (model load or inference) or into the crop/encode step; but when
the input bytes fail to decode, `process` rejects with
`'Failed to load image'` rather than resolving. -/
theorem C1_fallback_totality_amended :
    (∀ (input : String) (env : ProcEnv) (dims : Dims),
      env.decodeInput = some dims →
      ((∃ e, env.loadRes = Except.error e) ∨
       (∃ e, env.infer = Except.error e) ∨
       env.cropEnv.imgLoad = none ∨ env.cropEnv.ctxOk = false) →
      processImageWithFaceDetection input env =
        Except.ok { processedImage := ImageOut.orig input,
                    faceDetected := false, detection := none }) ∧
    (∀ (input : String) (env : ProcEnv),
      env.decodeInput = none →
      processImageWithFaceDetection input env =
        Except.error "Failed to load image") := by
  constructor
  · intro input env dims hdec hfail
    simp only [processImageWithFaceDetection, hdec]
    rcases hfail with ⟨e, he⟩ | ⟨e, he⟩ | h | h
    · simp [detectFace, detectFaceBody, he]
    · cases hload : env.loadRes with
      | error e2 => simp [detectFace, detectFaceBody, hload]
      | ok u => simp [detectFace, detectFaceBody, hload, he]
    · cases hdf : detectFace env.loadRes env.infer with
      | none => rfl
      | some box => simp [cropImageToFace, h]
    · cases hdf : detectFace env.loadRes env.infer with
      | none => rfl
      | some box =>
        cases himg : env.cropEnv.imgLoad with
        | none => simp [cropImageToFace, himg]
        | some d => simp [cropImageToFace, himg, h]
  · intro input env hdec
    simp only [processImageWithFaceDetection, hdec]

/-- Witness for C1 (amended): a failed model load with the input decoded
at 100×100 resolves to the fallback outcome. -/
theorem C1_fallback_totality_amended_witness :
    processImageWithFaceDetection "input"
      { decodeInput := some ⟨100, 100⟩, loadRes := Except.error "model fetch failed",
        infer := Except.ok none, cropEnv := { imgLoad := some ⟨100, 100⟩, ctxOk := true } }
      = Except.ok { processedImage := ImageOut.orig "input",
                    faceDetected := false, detection := none } :=
  C1_fallback_totality_amended.1 "input"
    { decodeInput := some ⟨100, 100⟩, loadRes := Except.error "model fetch failed",
      infer := Except.ok none, cropEnv := { imgLoad := some ⟨100, 100⟩, ctxOk := true } }
    ⟨100, 100⟩ rfl (Or.inl ⟨"model fetch failed", rfl⟩)

/-- **C4.** No-detection passthrough: when the input decodes and the
detector resolves with no face (`null` from `detectSingleFace` after a
successful model load), `process` resolves with the untouched input data
URL and `faceDetected: false`. -/
theorem C4_no_detection_passthrough (input : String) (env : ProcEnv) (dims : Dims)
    (hdec : env.decodeInput = some dims)
    (hload : env.loadRes = Except.ok ())
    (hnf : env.infer = Except.ok none) :
    processImageWithFaceDetection input env =
      Except.ok { processedImage := ImageOut.orig input,
                  faceDetected := false, detection := none } := by
  simp only [processImageWithFaceDetection, hdec, detectFace, detectFaceBody,
    hload, hnf]

/-- Witness for C4: concrete no-detection run on a 640×480 input. -/
theorem C4_no_detection_passthrough_witness :
    processImageWithFaceDetection "photo"
      { decodeInput := some ⟨640, 480⟩, loadRes := Except.ok (),
        infer := Except.ok none, cropEnv := { imgLoad := some ⟨640, 480⟩, ctxOk := true } }
      = Except.ok { processedImage := ImageOut.orig "photo",
                    faceDetected := false, detection := none } :=
  C4_no_detection_passthrough "photo"
    { decodeInput := some ⟨640, 480⟩, loadRes := Except.ok (),
      infer := Except.ok none, cropEnv := { imgLoad := some ⟨640, 480⟩, ctxOk := true } }
    ⟨640, 480⟩ rfl rfl rfl

/-- **C5.** Every error raised during model load or inference is caught
inside `detectFace`: whenever the try body throws, `detectFace` resolves
with `none` (no face found) instead of rejecting. -/
theorem C5_detect_face_never_propagates
    (loadRes : Except String Unit) (infer : Except String (Option Box))
    (herr : ∃ e, detectFaceBody loadRes infer = Except.error e) :
    detectFace loadRes infer = none := by
  obtain ⟨e, he⟩ := herr
  simp [detectFace, he]

/-- Witness for C5: a failed model load yields `none`. -/
theorem C5_detect_face_never_propagates_witness :
    detectFace (Except.error "import failed") (Except.ok none) = none :=
  C5_detect_face_never_propagates (Except.error "import failed")
    (Except.ok none) ⟨"import failed", rfl⟩

/-- **C6.** Idempotence of readiness: `N ≥ 1` sequential successful
`loadModels` calls from the initial state perform exactly one model
fetch and leave `modelsLoaded` true; moreover any `loadModels` call on an
already-loaded state returns immediately with the state (and hence the
fetch count and the flag) unchanged, so `Loaded` never reverts. -/
theorem C6_readiness_idempotent :
    (∀ N, 1 ≤ N →
      (loadModelsN ⟨true, true⟩ initialGateway N).fetchCount = 1 ∧
      (loadModelsN ⟨true, true⟩ initialGateway N).modelsLoaded = true) ∧
    (∀ (env : LoadEnv) (s : GatewayState), s.modelsLoaded = true →
      loadModels env s = (Except.ok (), s)) := by
  constructor
  · intro N hN
    obtain ⟨m, rfl⟩ : ∃ m, N = m + 1 := ⟨N - 1, by omega⟩
    have h1 : loadModelsN ⟨true, true⟩ initialGateway (m + 1) =
        loadModelsN ⟨true, true⟩ ⟨true, true, 1⟩ m := rfl
    rw [h1, loadModelsN_loaded ⟨true, true⟩ ⟨true, true, 1⟩ rfl m]
    exact ⟨rfl, rfl⟩
  · intro env s h
    rw [loadModels, if_pos h]

/-- Witness for C6: three sequential calls fetch once and end loaded;
a call on the loaded state is a no-op. -/
theorem C6_readiness_idempotent_witness :
    ((loadModelsN ⟨true, true⟩ initialGateway 3).fetchCount = 1 ∧
     (loadModelsN ⟨true, true⟩ initialGateway 3).modelsLoaded = true) ∧
    loadModels ⟨true, true⟩ ⟨true, true, 1⟩ = (Except.ok (), ⟨true, true, 1⟩) :=
  ⟨C6_readiness_idempotent.1 3 (by omega),
   C6_readiness_idempotent.2 ⟨true, true⟩ ⟨true, true, 1⟩ rfl⟩

/-- **C7 counterexample.** The claim says concurrent `loadModels` callers
attach to a single in-flight load so at most one fetch is ever performed;
but the code guards only with the `modelsLoaded` flag, set after the
fetch completes. In the interleaving where both callers pass the flag
check before either finishes, two model fetches are performed. -/
theorem C7_duplicate_fetch_counterexample :
    (concRun concInit overlappedSchedule).fetchCount = 2 := rfl

/-- **C7 (amended).** There is no in-flight load reference: a concurrent
caller that passes the `modelsLoaded` check while a load is still in
flight performs its own duplicate fetch (the overlapped interleaving
performs two fetches), whereas a caller that starts only after the first
completed performs none (the sequential interleaving performs one). -/
theorem C7_overlap_duplicates_fetch :
    (concRun concInit overlappedSchedule).fetchCount = 2 ∧
    (concRun concInit overlappedSchedule).loaded = true ∧
    (concRun concInit sequentialSchedule).fetchCount = 1 ∧
    (concRun concInit sequentialSchedule).loaded = true := by
  refine ⟨rfl, rfl, rfl, rfl⟩

/-- **C8.** A failed load is not cached as terminal: when the model fetch
fails, or the dynamic import is attempted and fails, `loadModels` rejects
and `modelsLoaded` stays false, and the next call re-attempts the fetch
(the fetch count increases) and succeeds under a healthy environment. -/
theorem C8_failed_load_not_poisoned (s : GatewayState) (env : LoadEnv)
    (h : s.modelsLoaded = false)
    (hfail : env.fetchOk = false ∨
      (env.importOk = false ∧ s.faceapiLoaded = false)) :
    (∃ e, (loadModels env s).1 = Except.error e) ∧
    (loadModels env s).2.modelsLoaded = false ∧
    (loadModels ⟨true, true⟩ (loadModels env s).2).2.modelsLoaded = true ∧
    (loadModels ⟨true, true⟩ (loadModels env s).2).2.fetchCount =
      (loadModels env s).2.fetchCount + 1 := by
  obtain ⟨imp, fok⟩ := env
  obtain ⟨fa, ml, fc⟩ := s
  simp only at h hfail
  subst h
  rcases hfail with h | ⟨h1, h2⟩
  · subst h
    cases imp <;> cases fa <;> simp [loadModels]
  · subst h1
    subst h2
    cases fok <;> simp [loadModels]

/-- Witness for C8: from the initial state, a run whose model fetch fails
rejects without setting the flag, and the retry fetches again and
succeeds. -/
theorem C8_failed_load_not_poisoned_witness :
    (∃ e, (loadModels ⟨true, false⟩ initialGateway).1 = Except.error e) ∧
    (loadModels ⟨true, false⟩ initialGateway).2.modelsLoaded = false ∧
    (loadModels ⟨true, true⟩ (loadModels ⟨true, false⟩ initialGateway).2).2.modelsLoaded
      = true ∧
    (loadModels ⟨true, true⟩ (loadModels ⟨true, false⟩ initialGateway).2).2.fetchCount
      = (loadModels ⟨true, false⟩ initialGateway).2.fetchCount + 1 :=
  C8_failed_load_not_poisoned initialGateway ⟨true, false⟩ rfl (Or.inl rfl)

/-- Shape of every resolution of `processImageWithFaceDetection`: either
the face-detected crop outcome, or the fallback outcome. -/
lemma process_ok_cases (input : String) (env : ProcEnv) (r : ProcessResult)
    (h : processImageWithFaceDetection input env = Except.ok r) :
    (∃ box cropped,
      detectFace env.loadRes env.infer = some box ∧
      cropImageToFace input box (9 / 5) env.cropEnv = Except.ok cropped ∧
      r = { processedImage := ImageOut.jpeg cropped, faceDetected := true,
            detection := some box }) ∨
    r = { processedImage := ImageOut.orig input, faceDetected := false,
          detection := none } := by
  simp only [processImageWithFaceDetection] at h
  split at h
  · exact Except.noConfusion h
  · split at h
    · rename_i box hbox
      split at h
      · rename_i cropped hcrop
        injection h with h
        exact Or.inl ⟨box, cropped, hbox, hcrop, h.symm⟩
      · injection h with h
        exact Or.inr h.symm
    · injection h with h
      exact Or.inr h.symm

/-- Shape of every successful resolution of `cropImageToFace`: the
`image/jpeg`, quality-0.95 encoding of the computed crop of the input. -/
lemma cropImageToFace_ok (input : String) (box : Box) (padding : ℚ)
    (env : CropEnv) (e : EncodedImage)
    (h : cropImageToFace input box padding env = Except.ok e) :
    ∃ dims, env.imgLoad = some dims ∧
      e = { mime := "image/jpeg", quality := 95 / 100,
            rect := computeCrop box dims padding, source := input } := by
  simp only [cropImageToFace] at h
  split at h
  · exact Except.noConfusion h
  · rename_i dims hdims
    split at h
    · injection h with h
      exact ⟨dims, hdims, h.symm⟩
    · exact Except.noConfusion h

/-- **C9.** The resolution value of `processImageWithFaceDetection`
carries a third field `detection` beyond the spec's two-field outcome,
and on every resolution the fields agree: `detection` is non-null exactly
when `faceDetected` is `true`, and null exactly when it is `false`. -/
theorem C9_detection_field_agreement (input : String) (env : ProcEnv)
    (r : ProcessResult)
    (h : processImageWithFaceDetection input env = Except.ok r) :
    (r.detection ≠ none ↔ r.faceDetected = true) ∧
    (r.detection = none ↔ r.faceDetected = false) := by
  rcases process_ok_cases input env r h with ⟨box, cropped, hbox, hcrop, rfl⟩ | rfl <;>
    simp

/-- Witness for C9: the fields agree on a concrete no-detection run. -/
theorem C9_detection_field_agreement_witness :
    ((ProcessResult.detection
        { processedImage := ImageOut.orig "in", faceDetected := false,
          detection := none } ≠ none) ↔
      (ProcessResult.faceDetected
        { processedImage := ImageOut.orig "in", faceDetected := false,
          detection := none } = true)) ∧
    ((ProcessResult.detection
        { processedImage := ImageOut.orig "in", faceDetected := false,
          detection := none } = none) ↔
      (ProcessResult.faceDetected
        { processedImage := ImageOut.orig "in", faceDetected := false,
          detection := none } = false)) :=
  C9_detection_field_agreement "in"
    { decodeInput := some ⟨10, 10⟩, loadRes := Except.ok (),
      infer := Except.ok none, cropEnv := { imgLoad := none, ctxOk := true } }
    { processedImage := ImageOut.orig "in", faceDetected := false,
      detection := none } rfl

/-- **C10.** On every face-detected resolution, the processed image is
the re-encoding produced by `canvas.toDataURL('image/jpeg', 0.95)`:
MIME type `image/jpeg` at quality 0.95 over the crop of the input,
whatever the input's original encoding was. -/
theorem C10_jpeg_reencode (input : String) (env : ProcEnv) (r : ProcessResult)
    (h : processImageWithFaceDetection input env = Except.ok r)
    (hface : r.faceDetected = true) :
    ∃ e, r.processedImage = ImageOut.jpeg e ∧
      e.mime = "image/jpeg" ∧ e.quality = 95 / 100 ∧ e.source = input := by
  rcases process_ok_cases input env r h with ⟨box, cropped, hbox, hcrop, rfl⟩ | rfl
  · obtain ⟨dims, hdims, rfl⟩ := cropImageToFace_ok input box (9 / 5) env.cropEnv
      cropped hcrop
    exact ⟨_, rfl, rfl, rfl, rfl⟩
  · simp at hface

/-- Witness for C10: a found face on a 100×100 image is re-encoded as
`image/jpeg` at quality 0.95. -/
theorem C10_jpeg_reencode_witness :
    ∃ e, (ProcessResult.processedImage
      { processedImage := ImageOut.jpeg
          { mime := "image/jpeg", quality := 95 / 100,
            rect := computeCrop ⟨10, 10, 20, 20⟩ ⟨100, 100⟩ (9/5),
            source := "in" },
        faceDetected := true, detection := some ⟨10, 10, 20, 20⟩ })
        = ImageOut.jpeg e ∧
      e.mime = "image/jpeg" ∧ e.quality = 95 / 100 ∧ e.source = "in" :=
  C10_jpeg_reencode "in"
    { decodeInput := some ⟨100, 100⟩, loadRes := Except.ok (),
      infer := Except.ok (some ⟨10, 10, 20, 20⟩),
      cropEnv := { imgLoad := some ⟨100, 100⟩, ctxOk := true } }
    { processedImage := ImageOut.jpeg
        { mime := "image/jpeg", quality := 95 / 100,
          rect := computeCrop ⟨10, 10, 20, 20⟩ ⟨100, 100⟩ (9/5),
          source := "in" },
      faceDetected := true, detection := some ⟨10, 10, 20, 20⟩ }
    rfl rfl

end FaceDetection
